import Mathlib

/-!
Verification of the diff-result aggregation and risk-scoring pipeline of
`malcontent-action`.

The definitions below are a shallow embedding of the JavaScript source
(`src/index.js` and the second, richer variant of the main module — the one
carrying `parseDiffOutput`, `calculateRiskScore`, `getRiskValue`,
`generateDiffSummary`, `generateSarifReport` and `postPRComment`).

Modelling conventions, chosen once and used throughout:

* A JSON payload is represented structurally: optional object fields become
  `Option` fields, arrays become `List`, JSON numbers become `Int` (the
  scanner emits integers; no fractional scores appear anywhere in the code).
  A field that is `none` models an absent key.  Object key order inside the
  original JSON is not recoverable, so structures fix one field order.
* JavaScript truthiness of `x || y` is modelled by dedicated helpers:
  a number is falsy exactly when it is `0`, a string exactly when it is
  empty, `undefined` is always falsy, and objects/arrays are always truthy.
* `JSON.parse` either fails (any input that is not structured data), which
  is the `DiffOutput.malformed` constructor carrying the raw text, or
  succeeds with an object payload (`DiffOutput.parsed`).
* String interpolation of a possibly-`undefined` value renders as the text
  `undefined`, as JavaScript template literals do.
-/

/-- JavaScript `s || d` for an optional string: `undefined` and the empty
string are falsy. -/
def jsStrOr : Option String → String → String
  | some s, d => if s = "" then d else s
  | none, d => d

/-- JavaScript `n || d` for an optional number: `undefined` and `0` are
falsy. -/
def jsNumOr : Option Int → Int → Int
  | some n, d => if n = 0 then d else n
  | none, d => d

/-- JavaScript truthiness of an optional boolean field (`undefined` is
falsy). -/
def jsBool : Option Bool → Bool
  | some b => b
  | none => false

/-- JavaScript template interpolation of a possibly-`undefined` string. -/
def jsShow : Option String → String
  | some s => s
  | none => "undefined"

/-- One behavior record as emitted by the scanner.  Optional fields model
absent JSON keys; both the new capitalized names and the legacy lowercase
names (`risk`, `severity`, `behaviors`) are representable. -/
structure Behavior where
  RiskScore : Option Int := none
  RiskLevel : Option String := none
  risk : Option String := none
  severity : Option String := none
  DiffRemoved : Option Bool := none
  Description : Option String := none
  RuleName : Option String := none
  RuleURL : Option String := none
  RuleLink : Option String := none
  ID : Option String := none
  MatchStrings : Option (List String) := none
deriving Repr, DecidableEq

/-- The per-file object found under a bucket key of the diff payload. -/
structure FileData where
  Path : Option String := none
  Behaviors : Option (List Behavior) := none
  behaviors : Option (List Behavior) := none
deriving Repr, DecidableEq

/-- The object holding the three diff buckets.  Both historical key sets are
representable; each bucket is a JSON object, modelled as an association list
in `Object.entries` order. -/
structure DiffData where
  Added : Option (List (String × FileData)) := none
  Removed : Option (List (String × FileData)) := none
  Modified : Option (List (String × FileData)) := none
  added : Option (List (String × FileData)) := none
  removed : Option (List (String × FileData)) := none
  modified : Option (List (String × FileData)) := none
deriving Repr, DecidableEq

/-- A successfully parsed top-level payload: it may carry a `Diff` or `diff`
container, and its own top-level bucket keys (`self`). -/
structure Payload where
  Diff : Option DiffData := none
  diff : Option DiffData := none
  self : DiffData := {}
deriving Repr, DecidableEq

/-- `parsed.Diff || parsed.diff || parsed` — objects are always truthy. -/
def diffDataOf (p : Payload) : DiffData :=
  p.Diff.getD (p.diff.getD p.self)

/-- The argument shapes accepted by `calculateRiskScore`: a bare array of
findings or a per-file object. -/
inductive Findings where
  | arr (findings : List Behavior)
  | obj (data : FileData)
deriving Repr, DecidableEq

/-- ASCII lowercasing of one character (JavaScript `toLowerCase` on the
ASCII level names used by the code; written without `String.toLower` so
that it reduces inside the kernel). -/
def jsLowerChar (c : Char) : Char :=
  if 65 ≤ c.toNat ∧ c.toNat ≤ 90 then Char.ofNat (c.toNat + 32) else c

/-- `s.toLowerCase()` over ASCII. -/
def jsToLower (s : String) : String :=
  String.mk (s.data.map jsLowerChar)

/-- ASCII uppercasing of one character. -/
def jsUpperChar (c : Char) : Char :=
  if 97 ≤ c.toNat ∧ c.toNat ≤ 122 then Char.ofNat (c.toNat - 32) else c

/-- `s.toUpperCase()` over ASCII. -/
def jsToUpper (s : String) : String :=
  String.mk (s.data.map jsUpperChar)

/-- `getRiskValue` — the fixed risk-level table, keyed on the lowercased
level. -/
def getRiskValue (risk : String) : Int :=
  match jsToLower risk with
  | "critical" => 10
  | "high" => 5
  | "medium" => 3
  | "low" => 1
  | _ => 0

/-- Per-behavior score in the capitalized `Behaviors` branch:
`behavior.RiskScore || getRiskValue(behavior.RiskLevel || 'low')`. -/
def behaviorScoreNew (b : Behavior) : Int :=
  jsNumOr b.RiskScore (getRiskValue (jsStrOr b.RiskLevel "low"))

/-- Per-behavior score in the legacy lowercase `behaviors` branch:
`behavior.RiskScore || getRiskValue(behavior.risk || 'low')`. -/
def behaviorScoreOld (b : Behavior) : Int :=
  jsNumOr b.RiskScore (getRiskValue (jsStrOr b.risk "low"))

/-- Per-finding score in the array branch:
`finding.RiskScore || getRiskValue(finding.RiskLevel || finding.risk ||
finding.severity || 'low')`. -/
def findingScore (f : Behavior) : Int :=
  jsNumOr f.RiskScore
    (getRiskValue (jsStrOr f.RiskLevel (jsStrOr f.risk (jsStrOr f.severity "low"))))

/-- `calculateRiskScore(findings)` — `none` models a falsy argument
(`null`/`undefined`); otherwise the array shape, then the `Behaviors`
field, then the legacy `behaviors` field are tried in order. -/
def calculateRiskScore : Option Findings → Int
  | none => 0
  | some (.arr findings) => findings.foldl (fun s f => s + findingScore f) 0
  | some (.obj data) =>
    match data.Behaviors with
    | some bs => bs.foldl (fun s b => s + behaviorScoreNew b) 0
    | none =>
      match data.behaviors with
      | some bs => bs.foldl (fun s b => s + behaviorScoreOld b) 0
      | none => 0

/-- An entry of the `added` or `removed` bucket of the canonical result. -/
structure FileEntry where
  file : String
  findings : FileData
  behaviors : List Behavior
  riskScore : Int
deriving Repr, DecidableEq

/-- An entry of the `changed` bucket of the canonical result. -/
structure ChangedEntry where
  file : String
  path : Option String
  behaviors : List Behavior
  addedBehaviors : List Behavior
  removedBehaviors : List Behavior
  riskDelta : Int
deriving Repr, DecidableEq

/-- The `raw` field of a `DiffResult`: `null`, the parsed payload, or the
unparsed text kept after a parse failure. -/
inductive RawVal where
  | null
  | json (p : Payload)
  | text (s : String)
deriving Repr, DecidableEq

/-- The canonical diff result built by `parseDiffOutput`.  Field defaults
are the initial values of the JavaScript object literal. -/
structure DiffResult where
  added : List FileEntry := []
  removed : List FileEntry := []
  changed : List ChangedEntry := []
  riskIncreased : Bool := false
  totalRiskDelta : Int := 0
  raw : RawVal := .null
deriving Repr, DecidableEq

/-- Input of `parseDiffOutput`: either text `JSON.parse` rejects, or a
parsed object payload. -/
inductive DiffOutput where
  | malformed (raw : String)
  | parsed (p : Payload)
deriving Repr, DecidableEq

/-- `reduce((sum, b) => sum + (b.RiskScore || 0), 0)`. -/
def reduceRiskScore (bs : List Behavior) : Int :=
  bs.foldl (fun s b => s + jsNumOr b.RiskScore 0) 0

/-- The risk score `parseDiffOutput` computes for one bucket entry:
`calculateRiskScore(data)`. -/
def fileRiskScore (data : FileData) : Int :=
  calculateRiskScore (some (.obj data))

/-- `behaviors.filter((b) => !b.DiffRemoved)` over `data.Behaviors || []`. -/
def addedBehaviorsOf (data : FileData) : List Behavior :=
  (data.Behaviors.getD []).filter (fun b => !(jsBool b.DiffRemoved))

/-- `behaviors.filter((b) => b.DiffRemoved)` over `data.Behaviors || []`. -/
def removedBehaviorsOf (data : FileData) : List Behavior :=
  (data.Behaviors.getD []).filter (fun b => jsBool b.DiffRemoved)

/-- The net delta of a modified entry: added-behavior scores minus
removed-behavior scores (each summed with `b.RiskScore || 0`). -/
def netRiskDelta (data : FileData) : Int :=
  reduceRiskScore (addedBehaviorsOf data) - reduceRiskScore (removedBehaviorsOf data)

/-- The object pushed for one `Added`/`Removed` bucket entry. -/
def mkFileEntry (e : String × FileData) : FileEntry :=
  { file := jsStrOr e.2.Path e.1, findings := e.2,
    behaviors := e.2.Behaviors.getD [], riskScore := fileRiskScore e.2 }

/-- The object pushed for one `Modified` bucket entry. -/
def mkChangedEntry (e : String × FileData) : ChangedEntry :=
  { file := jsStrOr e.2.Path e.1, path := e.2.Path,
    behaviors := e.2.Behaviors.getD [], addedBehaviors := addedBehaviorsOf e.2,
    removedBehaviors := removedBehaviorsOf e.2, riskDelta := netRiskDelta e.2 }

/-- Body of the `Added` loop of `parseDiffOutput`: push the entry, add its
score to the total, raise the flag when the score is positive. -/
def addedStep (d : DiffResult) (e : String × FileData) : DiffResult :=
  { d with
    added := d.added ++ [mkFileEntry e]
    totalRiskDelta := d.totalRiskDelta + fileRiskScore e.2
    riskIncreased := d.riskIncreased || decide (0 < fileRiskScore e.2) }

/-- Body of the `Removed` loop of `parseDiffOutput`: push the entry and
subtract its score; the `riskIncreased` flag is never touched. -/
def removedStep (d : DiffResult) (e : String × FileData) : DiffResult :=
  { d with
    removed := d.removed ++ [mkFileEntry e]
    totalRiskDelta := d.totalRiskDelta - fileRiskScore e.2 }

/-- Body of the `Modified` loop of `parseDiffOutput`: push the split entry,
add its net delta, raise the flag when the net delta is positive. -/
def modifiedStep (d : DiffResult) (e : String × FileData) : DiffResult :=
  { d with
    changed := d.changed ++ [mkChangedEntry e]
    totalRiskDelta := d.totalRiskDelta + netRiskDelta e.2
    riskIncreased := d.riskIncreased || decide (0 < netRiskDelta e.2) }

/-- `parseDiffOutput` of the richer module variant.  A parse failure keeps
the raw text and the empty buckets; a parsed payload is folded bucket by
bucket in source order (`Added`, `Removed`, `Modified`; only the
capitalized keys are consulted). -/
def parseDiffOutput : DiffOutput → DiffResult
  | .malformed s => { raw := .text s }
  | .parsed p =>
    let dd := diffDataOf p
    let d0 : DiffResult := { raw := .json p }
    let d1 := (dd.Added.getD []).foldl addedStep d0
    let d2 := (dd.Removed.getD []).foldl removedStep d1
    (dd.Modified.getD []).foldl modifiedStep d2

/-- Payload of testable property 2 of the spec: one added file whose single
behavior scores 8, one removed file whose single behavior scores 3. -/
def signConventionPayload : Payload :=
  { Diff := some
      { Added := some [("a", { Behaviors := some [{ RiskScore := some 8 }] })],
        Removed := some [("r", { Behaviors := some [{ RiskScore := some 3 }] })] } }

/-- Payload of testable property 3 of the spec: a single modified file whose
behavior list carries added scores 5 and 2 and a removed score 10. -/
def netModifiedPayload : Payload :=
  { Diff := some
      { Modified := some
          [("m", { Behaviors := some [{ RiskScore := some 5 }, { RiskScore := some 2 },
                                      { RiskScore := some 10, DiffRemoved := some true }] })] } }

example : (parseDiffOutput (.parsed signConventionPayload)).totalRiskDelta = 5 := by decide

example : (parseDiffOutput (.parsed netModifiedPayload)).totalRiskDelta = -3 := by decide

/-- The `Added` entries a payload yields. -/
def addedEntriesOf (p : Payload) : List (String × FileData) :=
  (diffDataOf p).Added.getD []

/-- The `Removed` entries a payload yields. -/
def removedEntriesOf (p : Payload) : List (String × FileData) :=
  (diffDataOf p).Removed.getD []

/-- The `Modified` entries a payload yields. -/
def modifiedEntriesOf (p : Payload) : List (String × FileData) :=
  (diffDataOf p).Modified.getD []

lemma foldl_addedStep (es : List (String × FileData)) (d : DiffResult) :
    es.foldl addedStep d =
      { d with
        added := d.added ++ es.map mkFileEntry
        totalRiskDelta := d.totalRiskDelta + (es.map (fun e => fileRiskScore e.2)).sum
        riskIncreased := d.riskIncreased || es.any (fun e => decide (0 < fileRiskScore e.2)) } := by
  induction es generalizing d with
  | nil => cases d; simp
  | cons e es ih =>
    rw [List.foldl_cons, ih]
    cases d
    simp [addedStep, add_assoc, Bool.or_assoc]

lemma foldl_removedStep (es : List (String × FileData)) (d : DiffResult) :
    es.foldl removedStep d =
      { d with
        removed := d.removed ++ es.map mkFileEntry
        totalRiskDelta := d.totalRiskDelta - (es.map (fun e => fileRiskScore e.2)).sum } := by
  induction es generalizing d with
  | nil => cases d; simp
  | cons e es ih =>
    rw [List.foldl_cons, ih]
    cases d
    simp [removedStep, sub_sub]

lemma foldl_modifiedStep (es : List (String × FileData)) (d : DiffResult) :
    es.foldl modifiedStep d =
      { d with
        changed := d.changed ++ es.map mkChangedEntry
        totalRiskDelta := d.totalRiskDelta + (es.map (fun e => netRiskDelta e.2)).sum
        riskIncreased := d.riskIncreased || es.any (fun e => decide (0 < netRiskDelta e.2)) } := by
  induction es generalizing d with
  | nil => cases d; simp
  | cons e es ih =>
    rw [List.foldl_cons, ih]
    cases d
    simp [modifiedStep, add_assoc, Bool.or_assoc]

/-- Closed form of `parseDiffOutput` on a successfully parsed payload. -/
theorem parseDiffOutput_parsed (p : Payload) :
    parseDiffOutput (.parsed p) =
      { added := (addedEntriesOf p).map mkFileEntry
        removed := (removedEntriesOf p).map mkFileEntry
        changed := (modifiedEntriesOf p).map mkChangedEntry
        riskIncreased :=
          (addedEntriesOf p).any (fun e => decide (0 < fileRiskScore e.2)) ||
          (modifiedEntriesOf p).any (fun e => decide (0 < netRiskDelta e.2))
        totalRiskDelta :=
          ((addedEntriesOf p).map (fun e => fileRiskScore e.2)).sum
          - ((removedEntriesOf p).map (fun e => fileRiskScore e.2)).sum
          + ((modifiedEntriesOf p).map (fun e => netRiskDelta e.2)).sum
        raw := .json p } := by
  have h : parseDiffOutput (.parsed p) =
      (modifiedEntriesOf p).foldl modifiedStep
        ((removedEntriesOf p).foldl removedStep
          ((addedEntriesOf p).foldl addedStep { raw := .json p })) := rfl
  rw [h, foldl_addedStep, foldl_removedStep, foldl_modifiedStep]
  simp

/-- C1: For every parsed diff payload, the sign convention of
`totalRiskDelta` holds — each added entry adds its full risk score, each
removed entry subtracts its full risk score, and each modified entry adds
its net delta — and on the payload with one added file of score 8 and one
removed file of score 3 the total is `5` with `riskIncreased = true`. -/
theorem claim_C1_sign_convention :
    (∀ p : Payload,
      (parseDiffOutput (.parsed p)).totalRiskDelta =
        ((addedEntriesOf p).map (fun e => fileRiskScore e.2)).sum
        - ((removedEntriesOf p).map (fun e => fileRiskScore e.2)).sum
        + ((modifiedEntriesOf p).map (fun e => netRiskDelta e.2)).sum)
    ∧ (parseDiffOutput (.parsed signConventionPayload)).totalRiskDelta = 5
    ∧ (parseDiffOutput (.parsed signConventionPayload)).riskIncreased = true := by
  refine ⟨fun p => ?_, by decide, by decide⟩
  rw [parseDiffOutput_parsed]

/-- C2: For every parsed diff payload, `riskIncreased` is true exactly when
some added entry has a positive risk score or some modified entry has a
positive net delta; a payload whose only change is a modified file with
added scores `[5, 2]` and removed score `[10]` yields entry delta `-3`,
total `-3` and `riskIncreased = false`. -/
theorem claim_C2_riskIncreased_iff :
    (∀ p : Payload,
      ((parseDiffOutput (.parsed p)).riskIncreased = true ↔
        (∃ e ∈ (parseDiffOutput (.parsed p)).added, 0 < e.riskScore) ∨
        (∃ e ∈ (parseDiffOutput (.parsed p)).changed, 0 < e.riskDelta)))
    ∧ (parseDiffOutput (.parsed netModifiedPayload)).changed.map (fun e => e.riskDelta) = [-3]
    ∧ (parseDiffOutput (.parsed netModifiedPayload)).totalRiskDelta = -3
    ∧ (parseDiffOutput (.parsed netModifiedPayload)).riskIncreased = false := by
  refine ⟨fun p => ?_, by decide, by decide, by decide⟩
  rw [parseDiffOutput_parsed]
  simp only [List.any_eq_true, Bool.or_eq_true, decide_eq_true_eq, List.mem_map, Prod.exists]
  constructor
  · rintro (⟨a, b, hab, hpos⟩ | ⟨a, b, hab, hpos⟩)
    · exact Or.inl ⟨mkFileEntry (a, b), ⟨a, b, hab, rfl⟩, hpos⟩
    · exact Or.inr ⟨mkChangedEntry (a, b), ⟨a, b, hab, rfl⟩, hpos⟩
  · rintro (⟨e, ⟨a, b, hab, rfl⟩, hpos⟩ | ⟨e, ⟨a, b, hab, rfl⟩, hpos⟩)
    · exact Or.inl ⟨a, b, hab, hpos⟩
    · exact Or.inr ⟨a, b, hab, hpos⟩

/-- Payload whose removed file carries an explicit negative score: its
removal adds `7` to the total while the flag stays down. -/
def negativeScorePayload : Payload :=
  { Diff := some { Removed := some [("f", { Behaviors := some [{ RiskScore := some (-7) }] })] } }

/-- Payload adding a file of score 5 while removing a file of score 10:
the flag goes up while the total drops. -/
def mixedDirectionPayload : Payload :=
  { Diff := some { Added := some [("g", { Behaviors := some [{ RiskScore := some 5 }] })],
                   Removed := some [("f", { Behaviors := some [{ RiskScore := some 10 }] })] } }

/-- C5: There is a payload with `riskIncreased = false` and a positive
total (a removed file carrying an explicit negative score), and a payload
with `riskIncreased = true` and a non-positive total. -/
theorem claim_C5_flag_asymmetry :
    (∃ p : Payload, (parseDiffOutput (.parsed p)).riskIncreased = false ∧
        0 < (parseDiffOutput (.parsed p)).totalRiskDelta)
    ∧ (∃ p : Payload, (parseDiffOutput (.parsed p)).riskIncreased = true ∧
        (parseDiffOutput (.parsed p)).totalRiskDelta ≤ 0) :=
  ⟨⟨negativeScorePayload, by decide, by decide⟩,
   ⟨mixedDirectionPayload, by decide, by decide⟩⟩

/-- The explicit score field, when present, is non-negative. -/
def scoreFieldNonneg (b : Behavior) : Bool :=
  Option.all (fun n => decide (0 ≤ n)) b.RiskScore

/-- All explicit score fields reachable by `calculateRiskScore` are
non-negative. -/
def findingsNonneg : Option Findings → Bool
  | none => true
  | some (.arr fs) => fs.all scoreFieldNonneg
  | some (.obj data) =>
      ((data.Behaviors.getD []).all scoreFieldNonneg) &&
      ((data.behaviors.getD []).all scoreFieldNonneg)

/-- All explicit score fields of the added and removed buckets of a payload
are non-negative. -/
def payloadScoresNonneg (p : Payload) : Bool :=
  ((addedEntriesOf p).all fun e => findingsNonneg (some (.obj e.2))) &&
  ((removedEntriesOf p).all fun e => findingsNonneg (some (.obj e.2)))

lemma getRiskValue_nonneg (s : String) : 0 ≤ getRiskValue s := by
  unfold getRiskValue
  split <;> decide

lemma jsNumOr_nonneg {v : Option Int} {d : Int}
    (hv : Option.all (fun n => decide (0 ≤ n)) v = true) (hd : 0 ≤ d) :
    0 ≤ jsNumOr v d := by
  cases v with
  | none => simpa [jsNumOr] using hd
  | some n =>
    simp [Option.all] at hv
    by_cases h : n = 0 <;> simp [jsNumOr, h, hv, hd]

lemma foldl_add_nonneg {α : Type} (f : α → Int) :
    ∀ (l : List α) (a : Int), 0 ≤ a → (∀ x ∈ l, 0 ≤ f x) →
      0 ≤ l.foldl (fun s x => s + f x) a := by
  intro l
  induction l with
  | nil => intro a ha _; exact ha
  | cons x xs ih =>
    intro a ha h
    rw [List.foldl_cons]
    exact ih _ (add_nonneg ha (h x (List.mem_cons_self x xs)))
      fun y hy => h y (List.mem_cons_of_mem x hy)

lemma behaviorScoreNew_nonneg {b : Behavior} (h : scoreFieldNonneg b = true) :
    0 ≤ behaviorScoreNew b :=
  jsNumOr_nonneg h (getRiskValue_nonneg _)

lemma behaviorScoreOld_nonneg {b : Behavior} (h : scoreFieldNonneg b = true) :
    0 ≤ behaviorScoreOld b :=
  jsNumOr_nonneg h (getRiskValue_nonneg _)

lemma findingScore_nonneg {b : Behavior} (h : scoreFieldNonneg b = true) :
    0 ≤ findingScore b :=
  jsNumOr_nonneg h (getRiskValue_nonneg _)

lemma calculateRiskScore_nonneg (f : Option Findings) (h : findingsNonneg f = true) :
    0 ≤ calculateRiskScore f := by
  match f with
  | none => decide
  | some (.arr fs) =>
    simp only [findingsNonneg, List.all_eq_true] at h
    exact foldl_add_nonneg findingScore fs 0 le_rfl fun x hx => findingScore_nonneg (h x hx)
  | some (.obj data) =>
    simp only [findingsNonneg, Bool.and_eq_true, List.all_eq_true] at h
    cases hB : data.Behaviors with
    | some bs =>
      simp only [calculateRiskScore, hB]
      refine foldl_add_nonneg behaviorScoreNew bs 0 le_rfl fun x hx => behaviorScoreNew_nonneg ?_
      exact h.1 x (by simp [hB, hx])
    | none =>
      cases hb : data.behaviors with
      | some bs =>
        simp only [calculateRiskScore, hB, hb]
        refine foldl_add_nonneg behaviorScoreOld bs 0 le_rfl fun x hx => behaviorScoreOld_nonneg ?_
        exact h.2 x (by simp [hb, hx])
      | none => simp [calculateRiskScore, hB, hb]

/-- C10: For every findings value whose explicit scores are non-negative,
`calculateRiskScore` is non-negative; consequently, for a payload whose
added and removed buckets carry only non-negative explicit scores, every
added entry contributes `≥ 0` to the total and every removed entry
contributes `≤ 0`. -/
theorem claim_C10_score_nonneg :
    (∀ f : Option Findings, findingsNonneg f = true → 0 ≤ calculateRiskScore f)
    ∧ (∀ p : Payload, payloadScoresNonneg p = true →
        (∀ e ∈ (parseDiffOutput (.parsed p)).added, 0 ≤ e.riskScore) ∧
        (∀ e ∈ (parseDiffOutput (.parsed p)).removed, -e.riskScore ≤ 0)) := by
  refine ⟨calculateRiskScore_nonneg, fun p hp => ?_⟩
  simp only [payloadScoresNonneg, Bool.and_eq_true, List.all_eq_true] at hp
  rw [parseDiffOutput_parsed]
  constructor
  · intro e he
    simp only [List.mem_map] at he
    obtain ⟨a, ha, rfl⟩ := he
    exact calculateRiskScore_nonneg _ (hp.1 a ha)
  · intro e he
    simp only [List.mem_map] at he
    obtain ⟨a, ha, rfl⟩ := he
    have := calculateRiskScore_nonneg _ (hp.2 a ha)
    simpa [mkFileEntry, fileRiskScore] using this

/-- Witness for C10 at concrete inputs: a findings object with explicit
score 4, and the sign-convention payload. -/
theorem claim_C10_score_nonneg_witness :
    (findingsNonneg (some (.obj { Behaviors := some [{ RiskScore := some 4 }] })) = true
      ∧ 0 ≤ calculateRiskScore (some (.obj { Behaviors := some [{ RiskScore := some 4 }] })))
    ∧ (payloadScoresNonneg signConventionPayload = true
      ∧ ∀ e ∈ (parseDiffOutput (.parsed signConventionPayload)).added, 0 ≤ e.riskScore) :=
  ⟨⟨by decide, claim_C10_score_nonneg.1 _ (by decide)⟩,
   ⟨by decide, (claim_C10_score_nonneg.2 signConventionPayload (by decide)).1⟩⟩

/-- Modelled from the spec, for comparison: the fixed risk-level table on
the case-folded level (CRITICAL=10, HIGH=5, MEDIUM=3, LOW=1, else 0). -/
def specRiskTable (lvl : String) : Int :=
  match jsToLower lvl with
  | "critical" => 10
  | "high" => 5
  | "medium" => 3
  | "low" => 1
  | _ => 0

/-- Modelled from the spec, for comparison: the claimed per-behavior score
cascade — the explicit numeric score field when present; otherwise the
table lookup on the case-folded risk level; otherwise (no score and no
recognized level) zero. -/
def specBehaviorRiskScore (b : Behavior) : Int :=
  match b.RiskScore with
  | some s => s
  | none =>
    match b.RiskLevel with
    | some lvl => specRiskTable lvl
    | none => 0

lemma specRiskTable_eq_getRiskValue (s : String) : specRiskTable s = getRiskValue s := rfl

/-- C3 counterexample: a behavior with no score and no level derives score
`1` in the code (the level defaults to `'low'`), not the `0` the claimed
cascade gives; so the claimed cascade does not hold of every behavior. -/
theorem claim_C3_cascade_counterexample :
    behaviorScoreNew {} = 1 ∧ specBehaviorRiskScore {} = 0 ∧
    ¬ (∀ b : Behavior, behaviorScoreNew b = specBehaviorRiskScore b) :=
  ⟨by decide, by decide, fun h => absurd (h {}) (by decide)⟩

/-- Modelled from the spec as amended: the explicit score is used only when
present and nonzero; otherwise the table lookup on the case-folded level,
an absent or empty level defaulting to `'low'` (score 1); a present but
unrecognized level scores 0. -/
def specBehaviorScoreAmended (b : Behavior) : Int :=
  let lvl :=
    match b.RiskLevel with
    | some l => if l = "" then "low" else l
    | none => "low"
  match b.RiskScore with
  | some s => if s = 0 then specRiskTable lvl else s
  | none => specRiskTable lvl

/-- C3 (amended): for every behavior of the `Behaviors` branch, the derived
risk score is the explicit score when present and nonzero, else the table
lookup on the case-folded level with absent/empty level defaulting to low
(=1) and an unrecognized level scoring zero. -/
theorem claim_C3_cascade_amended :
    ∀ b : Behavior, behaviorScoreNew b = specBehaviorScoreAmended b := by
  intro b
  cases hs : b.RiskScore <;> cases hl : b.RiskLevel <;>
    simp [behaviorScoreNew, specBehaviorScoreAmended, jsNumOr, jsStrOr, hs, hl,
      specRiskTable_eq_getRiskValue]

/-- A payload in the older schema shape: lowercase bucket keys with a
lowercase `behaviors` list and a `risk` field. -/
def legacyShapePayload : Payload :=
  { self := { added := some [("f", { behaviors := some [{ risk := some "high" }] })] } }

/-- The same single-file diff in the newer schema shape: a `Diff` container
with capitalized keys and fields. -/
def capitalShapePayload : Payload :=
  { Diff := some { Added := some [("f", { Behaviors := some [{ RiskLevel := some "high" }] })] } }

/-- C4 counterexample: the older lowercase-keyed shape yields empty buckets
and zero delta, while the equivalent capitalized shape yields one added
entry of score 5 — the two historical shapes are not both accepted. -/
theorem claim_C4_schema_counterexample :
    (parseDiffOutput (.parsed legacyShapePayload)).added = []
    ∧ (parseDiffOutput (.parsed legacyShapePayload)).totalRiskDelta = 0
    ∧ (parseDiffOutput (.parsed capitalShapePayload)).added.length = 1
    ∧ (parseDiffOutput (.parsed capitalShapePayload)).totalRiskDelta = 5 := by
  refine ⟨?_, ?_, ?_, ?_⟩ <;> decide

/-- The bucket contents and aggregates of a result (everything except the
`raw` passthrough). -/
def resultBuckets (d : DiffResult) :
    List FileEntry × List FileEntry × List ChangedEntry × Bool × Int :=
  (d.added, d.removed, d.changed, d.riskIncreased, d.totalRiskDelta)

/-- C4 (amended): the normalizer reads only capitalized bucket keys — the
newer shape is accepted bare, under `Diff`, or under `diff`, with identical
buckets; per-file findings lookup prefers `Behaviors` and falls back to the
legacy `behaviors` when it is absent; a payload carrying only the legacy
lowercase bucket keys produces empty buckets. -/
theorem claim_C4_schema_cascade_amended :
    (∀ dd rest : DiffData,
      resultBuckets (parseDiffOutput (.parsed { Diff := some dd, self := rest })) =
        resultBuckets (parseDiffOutput (.parsed { self := dd }))
      ∧ resultBuckets (parseDiffOutput (.parsed { diff := some dd, self := rest })) =
        resultBuckets (parseDiffOutput (.parsed { self := dd })))
    ∧ (∀ (path : Option String) (bsNew : List Behavior) (bsOld : Option (List Behavior)),
        fileRiskScore { Path := path, Behaviors := some bsNew, behaviors := bsOld } =
          bsNew.foldl (fun s b => s + behaviorScoreNew b) 0)
    ∧ (∀ (path : Option String) (bsOld : List Behavior),
        fileRiskScore { Path := path, Behaviors := none, behaviors := some bsOld } =
          bsOld.foldl (fun s b => s + behaviorScoreOld b) 0)
    ∧ (∀ dd : DiffData, dd.Added = none → dd.Removed = none → dd.Modified = none →
        resultBuckets (parseDiffOutput (.parsed { self := dd })) = ([], [], [], false, 0)) := by
  refine ⟨fun dd rest => ⟨?_, ?_⟩, fun path bsNew bsOld => rfl, fun path bsOld => rfl,
    fun dd h1 h2 h3 => ?_⟩
  · rw [parseDiffOutput_parsed, parseDiffOutput_parsed]; rfl
  · rw [parseDiffOutput_parsed, parseDiffOutput_parsed]; rfl
  · rw [parseDiffOutput_parsed]
    simp [resultBuckets, addedEntriesOf, removedEntriesOf, modifiedEntriesOf, diffDataOf,
      h1, h2, h3]

/-- Witness for C4 (amended) at concrete inputs, the lowercase-keys branch
discharged on a payload whose only bucket key is the legacy `added`. -/
theorem claim_C4_schema_cascade_amended_witness :
    ((legacyShapePayload.self.Added = none ∧ legacyShapePayload.self.Removed = none ∧
        legacyShapePayload.self.Modified = none)
      ∧ resultBuckets (parseDiffOutput (.parsed { self := legacyShapePayload.self })) =
          ([], [], [], false, 0))
    ∧ fileRiskScore { Path := none, Behaviors := some [{ RiskLevel := some "high" }],
                      behaviors := some [{ risk := some "critical" }] } = 5 :=
  ⟨⟨⟨rfl, rfl, rfl⟩, claim_C4_schema_cascade_amended.2.2.2 legacyShapePayload.self rfl rfl rfl⟩,
   by
    rw [claim_C4_schema_cascade_amended.2.1 none [{ RiskLevel := some "high" }]
      (some [{ risk := some "critical" }])]
    decide⟩

/-- Truthiness of an optional string field (`undefined` and `''` falsy). -/
def jsStrTruthy : Option String → Bool
  | some s => decide (s ≠ "")
  | none => false

/-- JavaScript `a || b` over two optional strings, keeping optionality. -/
def jsStrOrOpt (a b : Option String) : Option String :=
  match a with
  | some s => if s = "" then b else some s
  | none => b

/-- `str.replace(/^\/[^\/]+\//, '')` — strip one leading path segment when
the string starts with a slash-delimited segment. -/
def stripTempDir (s : String) : String :=
  match s.data with
  | '/' :: c :: rest =>
    if c = '/' then s
    else
      match (c :: rest).dropWhile (fun x => x ≠ '/') with
      | '/' :: tail => String.mk tail
      | _ => s
  | _ => s

/-- Stable insertion of `x` after all kept elements of equal or higher key
(descending order). -/
def insertDesc {α : Type} (key : α → Int) (x : α) : List α → List α
  | [] => [x]
  | y :: ys => if key y < key x then x :: y :: ys else y :: insertDesc key x ys

/-- `array.sort((a, b) => key(b) - key(a))` — JavaScript sorts are stable,
and a stable descending sort is uniquely determined by the key, so a stable
insertion sort is an exact model. -/
def sortDesc {α : Type} (key : α → Int) (l : List α) : List α :=
  l.foldl (fun acc x => insertDesc key x acc) []

/-- The sort key used on behavior lists: `(b.RiskScore || 0)`. -/
def behaviorSortKey (b : Behavior) : Int :=
  jsNumOr b.RiskScore 0

/-- `getRiskEmoji` of the richer module (the source file stores the emoji
as the literal character sequences reproduced here). -/
def getRiskEmoji (riskLevel : Option String) : String :=
  match riskLevel with
  | none => "‚ö™"
  | some l =>
    if l = "" then "‚ö™"
    else
      match jsToUpper l with
      | "CRITICAL" => "üî¥"
      | "HIGH" => "üü†"
      | "MEDIUM" => "üü°"
      | "LOW" => "üü¢"
      | _ => "‚ö™"

/-- Lines pushed for one added behavior of a modified file (bold
description, optional first match string, optional rule link). -/
def changedAddedBehaviorLines (b : Behavior) : List String :=
  ["- " ++ getRiskEmoji b.RiskLevel ++ " **" ++ jsShow b.Description ++ "** [" ++
    jsShow b.RiskLevel ++ "]"]
  ++ (match b.MatchStrings with
      | some (m :: _) => ["  - Match: `" ++ m ++ "`"]
      | _ => [])
  ++ (if jsStrTruthy b.RuleURL then
        ["  - Rule: [" ++ jsShow (jsStrOrOpt b.RuleName b.ID) ++ "](" ++ jsShow b.RuleURL ++ ")"]
      else [])

/-- Lines pushed for one removed behavior of a modified file
(strikethrough description, optional first match string). -/
def changedRemovedBehaviorLines (b : Behavior) : List String :=
  ["- " ++ getRiskEmoji b.RiskLevel ++ " ~~" ++ jsShow b.Description ++ "~~ [" ++
    jsShow b.RiskLevel ++ "]"]
  ++ (match b.MatchStrings with
      | some (m :: _) => ["  - Match: `" ++ m ++ "`"]
      | _ => [])

/-- Lines pushed for one behavior of a new file (bold description, optional
first match string). -/
def addedFileBehaviorLines (b : Behavior) : List String :=
  ["- " ++ getRiskEmoji b.RiskLevel ++ " **" ++ jsShow b.Description ++ "** [" ++
    jsShow b.RiskLevel ++ "]"]
  ++ (match b.MatchStrings with
      | some (m :: _) => ["  - Match: `" ++ m ++ "`"]
      | _ => [])

/-- Line pushed for one behavior of a removed file. -/
def removedFileBehaviorLines (b : Behavior) : List String :=
  ["- " ++ getRiskEmoji b.RiskLevel ++ " ~~" ++ jsShow b.Description ++ "~~ [" ++
    jsShow b.RiskLevel ++ "]"]

/-- The block of lines for one modified-file entry of the extended summary. -/
def changedItemLines (it : ChangedEntry) : List String :=
  ["#### üìÑ `" ++ stripTempDir it.file ++ "`"]
  ++ (if it.addedBehaviors.length > 0 then
        ["", "**‚ûï Added behaviors:**"]
        ++ (sortDesc behaviorSortKey it.addedBehaviors).flatMap changedAddedBehaviorLines
      else [])
  ++ (if it.removedBehaviors.length > 0 then
        ["", "**‚ûñ Removed behaviors:**"]
        ++ (sortDesc behaviorSortKey it.removedBehaviors).flatMap changedRemovedBehaviorLines
      else [])
  ++ [""]

/-- The block of lines for one new-file entry of the extended summary (at
most the 10 highest-scoring behaviors, then a remainder trailer). -/
def addedItemLines (it : FileEntry) : List String :=
  ["#### üìÑ `" ++ stripTempDir it.file ++ "`",
   "**Risk Score: " ++ toString it.riskScore ++ "**",
   "",
   "**Behaviors detected:**"]
  ++ ((sortDesc behaviorSortKey it.behaviors).take 10).flatMap addedFileBehaviorLines
  ++ (if it.behaviors.length > 10 then
        ["- ... and " ++ toString (it.behaviors.length - 10) ++ " more behaviors"]
      else [])
  ++ [""]

/-- The block of lines for one removed-file entry of the extended summary. -/
def removedItemLines (it : FileEntry) : List String :=
  ["#### ~~" ++ stripTempDir it.file ++ "~~",
   "**Previous Risk Score: " ++ toString it.riskScore ++ "**",
   "",
   "**Behaviors removed:**"]
  ++ ((sortDesc behaviorSortKey it.behaviors).take 10).flatMap removedFileBehaviorLines
  ++ (if it.behaviors.length > 10 then
        ["- ... and " ++ toString (it.behaviors.length - 10) ++ " more behaviors removed"]
      else [])
  ++ [""]

/-- The `lines` array built by the extended `generateDiffSummary` when the
early no-changes return is not taken. -/
def generateDiffSummaryLines (d : DiffResult) : List String :=
  (if d.riskIncreased then
    ["## üî¥ Security Risk Increased (+" ++ toString d.totalRiskDelta ++ " points)"]
  else if d.totalRiskDelta < 0 then
    ["## üü¢ Security Risk Decreased (" ++ toString d.totalRiskDelta ++ " points)"]
  else
    ["## üü° Security Behaviors Changed (no net risk change)"])
  ++ [""]
  ++ (if d.changed.length > 0 then
        ["### Modified Files", ""]
        ++ (sortDesc (fun it => it.riskDelta) d.changed).flatMap changedItemLines
      else [])
  ++ (if d.added.length > 0 then
        ["### New Files with Security Findings", ""]
        ++ (sortDesc (fun it => it.riskScore) d.added).flatMap addedItemLines
        ++ [""]
      else [])
  ++ (if d.removed.length > 0 then
        ["### Removed Files", ""]
        ++ (sortDesc (fun it => it.riskScore) d.removed).flatMap removedItemLines
        ++ [""]
      else [])

/-- The extended `generateDiffSummary` of the richer module. -/
def generateDiffSummary (d : DiffResult) : String :=
  if d.totalRiskDelta = 0 ∧ d.added.length = 0 ∧ d.removed.length = 0 ∧ d.changed.length = 0 then
    "## üü¢ No security-relevant changes detected\n\nAll files passed malcontent analysis without any behavioral differences."
  else
    String.intercalate "\n" (generateDiffSummaryLines d)

namespace IndexJs

/-- The `lines` array built by `generateDiffSummary` of `src/index.js`.
That file joins and prefixes its bucket headers with the two-character
sequence backslash-`n` (its template literals contain `\\n`), reproduced
faithfully here. -/
def generateDiffSummaryLines (d : DiffResult) : List String :=
  ["## Malcontent Analysis Summary"]
  ++ (if d.totalRiskDelta = 0 ∧ d.added.length = 0 ∧ d.removed.length = 0 ∧
        d.changed.length = 0 then
        ["✅ No security-relevant changes detected"]
      else
        (if d.riskIncreased then
          ["⚠️ **Risk Score Increased by " ++ toString d.totalRiskDelta ++ "**"]
        else if d.totalRiskDelta < 0 then
          ["✅ Risk Score Decreased by " ++ toString d.totalRiskDelta.natAbs]
        else [])
        ++ (if d.added.length > 0 then
              ["\\n### New Files with Findings (" ++ toString d.added.length ++ ")"]
              ++ (d.added.take 5).map (fun it =>
                    "- " ++ it.file ++ " (risk score: " ++ toString it.riskScore ++ ")")
              ++ (if d.added.length > 5 then
                    ["- ... and " ++ toString (d.added.length - 5) ++ " more"]
                  else [])
            else [])
        ++ (if d.removed.length > 0 then
              ["\\n### Removed Files with Findings (" ++ toString d.removed.length ++ ")"]
              ++ (d.removed.take 5).map (fun it =>
                    "- " ++ it.file ++ " (risk score: " ++ toString it.riskScore ++ ")")
              ++ (if d.removed.length > 5 then
                    ["- ... and " ++ toString (d.removed.length - 5) ++ " more"]
                  else [])
            else [])
        ++ (if d.changed.length > 0 then
              ["\\n### Files with Changed Findings (" ++ toString d.changed.length ++ ")"]
              ++ (d.changed.take 5).map (fun it =>
                    "- " ++ it.file ++ " (risk delta: " ++
                      (if it.riskDelta > 0 then "+" ++ toString it.riskDelta
                       else toString it.riskDelta) ++ ")")
              ++ (if d.changed.length > 5 then
                    ["- ... and " ++ toString (d.changed.length - 5) ++ " more"]
                  else [])
            else []))

/-- `generateDiffSummary` of `src/index.js` (the short mode): buckets are
truncated to their first five entries, unsorted, joined with the literal
backslash-`n` sequence of the source. -/
def generateDiffSummary (d : DiffResult) : String :=
  String.intercalate "\\n" (generateDiffSummaryLines d)

end IndexJs

/-- JavaScript `hay.includes(needle)` on the underlying character lists. -/
def containsSub (needle : List Char) : List Char → Bool
  | [] => List.isPrefixOf needle []
  | c :: t => List.isPrefixOf needle (c :: t) || containsSub needle t

/-- JavaScript `hay.includes(needle)`. -/
def strContains (hay needle : String) : Bool :=
  containsSub needle.data hay.data

/-- C9: For every input the structured parser rejects, normalization
degrades instead of failing — empty buckets, zero delta, flag down, the
raw text kept verbatim — and both summary renderers report that no changes
were detected. -/
theorem claim_C9_malformed_degrades (s : String) :
    parseDiffOutput (.malformed s) =
      { added := [], removed := [], changed := [], riskIncreased := false,
        totalRiskDelta := 0, raw := .text s }
    ∧ generateDiffSummary (parseDiffOutput (.malformed s)) =
        "## üü¢ No security-relevant changes detected\n\nAll files passed malcontent analysis without any behavioral differences."
    ∧ IndexJs.generateDiffSummary (parseDiffOutput (.malformed s)) =
        "## Malcontent Analysis Summary\\n✅ No security-relevant changes detected" :=
  ⟨rfl, rfl, rfl⟩

/-- A header line of a per-file block of the extended summary. -/
def lineIsFileHeader (l : String) : Bool :=
  List.isPrefixOf ("#### ".data) l.data

/-- A canonical result whose added bucket has eleven entries (no behaviors,
score zero each). -/
def bucket11Diff : DiffResult :=
  { added := ["a", "b", "c", "d", "e", "f", "g", "h", "i", "j", "k"].map
      (fun n => { file := n, findings := {}, behaviors := [], riskScore := 0 }) }

set_option maxRecDepth 20000 in
/-- C7 counterexample: in the extended summary an eleven-entry bucket
renders all eleven per-file blocks and no "...and 1 more" trailer — the
claimed 10-entry bucket truncation for extended mode does not happen. -/
theorem claim_C7_truncation_counterexample :
    ((generateDiffSummaryLines bucket11Diff).countP lineIsFileHeader = 11)
    ∧ ((generateDiffSummaryLines bucket11Diff).countP (fun l => strContains l "more") = 0)
    ∧ strContains (generateDiffSummary bucket11Diff) "...and 1 more" = false := by
  refine ⟨by decide, by decide, by decide⟩

/-- Eleven behaviors of strictly descending scores 11 down to 1, with
descriptions `d1` … `d11`. -/
def elevenBehaviors : List Behavior :=
  (List.range 11).map
    (fun i => { RiskScore := some ((11 : Int) - i),
                Description := some ("d" ++ toString (i + 1)) })

/-- One added file carrying the eleven descending behaviors. -/
def added11Diff : DiffResult :=
  { added := [{ file := "f", findings := {}, behaviors := elevenBehaviors,
                riskScore := 0 }] }

/-- One removed file carrying the eleven descending behaviors. -/
def removed11Diff : DiffResult :=
  { removed := [{ file := "f", findings := {}, behaviors := elevenBehaviors,
                  riskScore := 0 }] }

/-- One modified file whose eleven descending behaviors are all added
behaviors. -/
def changed11Diff : DiffResult :=
  { changed := [{ file := "m", path := none, behaviors := elevenBehaviors,
                  addedBehaviors := elevenBehaviors, removedBehaviors := [],
                  riskDelta := 0 }] }

set_option maxRecDepth 20000 in
/-- C7 (amended): the short-mode summary truncates each bucket to its first
five entries with a "- ... and N more" trailer (an 11-entry bucket renders
5 entries and "- ... and 6 more"); the extended summary renders every
bucket entry (11 per-file blocks for an 11-entry bucket, no bucket
trailer); within a file block, only added-bucket and removed-bucket files
truncate their behavior lists to the ten highest-scoring entries, with a
"- ... and N more behaviors" (resp. "... more behaviors removed") trailer,
while a modified file's added/removed behavior lists render in full with
no truncation and no trailer. -/
theorem claim_C7_truncation_amended :
    (IndexJs.generateDiffSummaryLines bucket11Diff =
      ["## Malcontent Analysis Summary",
       "\\n### New Files with Findings (11)",
       "- a (risk score: 0)", "- b (risk score: 0)", "- c (risk score: 0)",
       "- d (risk score: 0)", "- e (risk score: 0)",
       "- ... and 6 more"])
    ∧ ((generateDiffSummaryLines bucket11Diff).countP lineIsFileHeader = 11
        ∧ (generateDiffSummaryLines bucket11Diff).countP
            (fun l => strContains l "more") = 0)
    ∧ ((generateDiffSummaryLines added11Diff).contains "- ‚ö™ **d10** [undefined]" = true
        ∧ (generateDiffSummaryLines added11Diff).countP
            (fun l => strContains l "**d11**") = 0
        ∧ (generateDiffSummaryLines added11Diff).contains "- ... and 1 more behaviors" = true)
    ∧ ((generateDiffSummaryLines removed11Diff).contains "- ‚ö™ ~~d10~~ [undefined]" = true
        ∧ (generateDiffSummaryLines removed11Diff).countP
            (fun l => strContains l "~~d11~~") = 0
        ∧ (generateDiffSummaryLines removed11Diff).contains
            "- ... and 1 more behaviors removed" = true)
    ∧ ((generateDiffSummaryLines changed11Diff).contains "- ‚ö™ **d11** [undefined]" = true
        ∧ (generateDiffSummaryLines changed11Diff).countP
            (fun l => List.isPrefixOf ("- ".data) l.data) = 11
        ∧ (generateDiffSummaryLines changed11Diff).countP
            (fun l => strContains l "more behaviors") = 0) := by
  refine ⟨by decide, ⟨by decide, by decide⟩, ⟨by decide, by decide, by decide⟩,
    ⟨by decide, by decide, by decide⟩, ⟨by decide, by decide, by decide⟩⟩

/-- `getSarifLevel` of `generateSarifReport`: CRITICAL/HIGH map to error,
MEDIUM to warning, LOW or anything else (including no level) to note. -/
def getSarifLevel (riskLevel : Option String) : String :=
  match riskLevel with
  | none => "note"
  | some l =>
    if l = "" then "note"
    else
      match jsToUpper l with
      | "CRITICAL" => "error"
      | "HIGH" => "error"
      | "MEDIUM" => "warning"
      | "LOW" => "note"
      | _ => "note"

/-- Helper for the rule-id slug: collapse each whitespace run into one
hyphen (`replace(/\s+/g, '-')`), written with an in-run flag so the
recursion is structural. -/
def collapseWsAux : Bool → List Char → List Char
  | _, [] => []
  | inRun, c :: rest =>
    if c.isWhitespace then
      if inRun then collapseWsAux true rest
      else '-' :: collapseWsAux true rest
    else c :: collapseWsAux false rest

/-- The synthetic rule-id slug:
`` `malcontent-${behavior.Description?.replace(/\s+/g, '-').toLowerCase()}` ``;
a missing description interpolates as the text `undefined`. -/
def slugDescription (desc : Option String) : String :=
  match desc with
  | some d => "malcontent-" ++ jsToLower (String.mk (collapseWsAux false d.data))
  | none => "malcontent-undefined"

/-- One result record of the interchange report (the fields
`generateSarifReport` fills in; `tags` is the optional
`properties.tags`). -/
structure SarifResult where
  ruleId : String
  level : String
  messageText : String
  uri : String
  tags : Option (List String)
deriving Repr, DecidableEq

/-- The message text: the description (or the fixed fallback), with the
first match string appended when present. -/
def sarifMessageText (b : Behavior) : String :=
  let base := jsStrOr b.Description "Security behavior detected"
  match b.MatchStrings with
  | some (m :: _) => base ++ ": " ++ m
  | _ => base

/-- The result record pushed for one behavior of an added file. -/
def sarifResultOfAdded (it : FileEntry) (b : Behavior) : SarifResult :=
  { ruleId := jsStrOr b.RuleName (slugDescription b.Description),
    level := getSarifLevel b.RiskLevel,
    messageText := sarifMessageText b,
    uri := stripTempDir it.file,
    tags := match b.MatchStrings with
            | some (m :: ms) => some (m :: ms)
            | _ => none }

/-- The result record pushed for one added behavior of a modified file
(`uri` is `item.path || item.file.replace(...)`). -/
def sarifResultOfChanged (it : ChangedEntry) (b : Behavior) : SarifResult :=
  { ruleId := jsStrOr b.RuleName (slugDescription b.Description),
    level := getSarifLevel b.RiskLevel,
    messageText := sarifMessageText b,
    uri := jsStrOr it.path (stripTempDir it.file),
    tags := match b.MatchStrings with
            | some (m :: ms) => some (m :: ms)
            | _ => none }

/-- The `run.results` list built by `generateSarifReport`: one push per
behavior of each added file, then one push per added behavior of each
modified file. -/
def sarifResults (d : DiffResult) : List SarifResult :=
  let rs := d.added.foldl
    (fun acc it => it.behaviors.foldl (fun a b => a ++ [sarifResultOfAdded it b]) acc) []
  d.changed.foldl
    (fun acc it => it.addedBehaviors.foldl (fun a b => a ++ [sarifResultOfChanged it b]) acc) rs

lemma foldl_push_map {α β : Type} (g : α → β) (l : List α) (acc : List β) :
    l.foldl (fun a x => a ++ [g x]) acc = acc ++ l.map g := by
  induction l generalizing acc with
  | nil => simp
  | cons x xs ih => simp [List.foldl_cons, ih]

lemma foldl_nested_push {α β γ : Type} (g : α → γ → β) (sel : α → List γ)
    (l : List α) (acc : List β) :
    l.foldl (fun a it => (sel it).foldl (fun a2 b => a2 ++ [g it b]) a) acc
      = acc ++ l.flatMap (fun it => (sel it).map (g it)) := by
  induction l generalizing acc with
  | nil => simp
  | cons x xs ih =>
    rw [List.foldl_cons, foldl_push_map, ih]
    simp [List.append_assoc]

/-- The behavior list of the 2-added/3-removed interchange example. -/
def twoThreeBehaviors : List Behavior :=
  [{ Description := some "a1" }, { Description := some "a2" },
   { Description := some "r1", DiffRemoved := some true },
   { Description := some "r2", DiffRemoved := some true },
   { Description := some "r3", DiffRemoved := some true }]

/-- A diff whose only change is one modified file with two added behaviors
(`a1`, `a2`) and three removed ones (`r1`, `r2`, `r3`). -/
def twoThreePayload : Payload :=
  { Diff := some
      { Modified := some [("m", { Behaviors := some twoThreeBehaviors })] } }

set_option maxRecDepth 20000 in
/-- C6: The interchange results are exactly the added behaviors — every
behavior of every added-bucket file, then the addedBehaviors of every
modified file — and nothing else; a modified file with 2 added and 3
removed behaviors contributes exactly its 2 added result records, none
mentioning the removed descriptions. -/
theorem claim_C6_sarif_added_only :
    (∀ d : DiffResult,
      sarifResults d =
        d.added.flatMap (fun it => it.behaviors.map (sarifResultOfAdded it))
        ++ d.changed.flatMap (fun it => it.addedBehaviors.map (sarifResultOfChanged it)))
    ∧ (sarifResults (parseDiffOutput (.parsed twoThreePayload))).length = 2
    ∧ (sarifResults (parseDiffOutput (.parsed twoThreePayload))).map
        (fun r => r.messageText) = ["a1", "a2"] := by
  refine ⟨fun d => ?_, by decide, by decide⟩
  have h : sarifResults d =
      d.changed.foldl
        (fun acc it => it.addedBehaviors.foldl (fun a b => a ++ [sarifResultOfChanged it b]) acc)
        (d.added.foldl
          (fun acc it => it.behaviors.foldl (fun a b => a ++ [sarifResultOfAdded it b]) acc)
          []) := rfl
  rw [h, foldl_nested_push, foldl_nested_push]
  simp

/-- One hexadecimal digit (lowercase, as `JSON.stringify` emits). -/
def hexDigit (n : Nat) : Char :=
  if n < 10 then Char.ofNat (48 + n) else Char.ofNat (87 + n)

/-- Two-digit hexadecimal rendering of a byte value. -/
def hex2 (n : Nat) : String :=
  String.mk [hexDigit (n / 16), hexDigit (n % 16)]

/-- `JSON.stringify` escaping of one character. -/
def escChar (c : Char) : String :=
  if c = '"' then "\\\""
  else if c = '\\' then "\\\\"
  else if c = '\n' then "\\n"
  else if c = '\r' then "\\r"
  else if c = '\t' then "\\t"
  else if c.toNat = 8 then "\\b"
  else if c.toNat = 12 then "\\f"
  else if c.toNat < 32 then "\\u00" ++ hex2 c.toNat
  else String.singleton c

/-- A JSON string literal. -/
def jsonStr (s : String) : String :=
  "\"" ++ String.join (s.data.map escChar) ++ "\""

/-- `n` spaces. -/
def indentStr (n : Nat) : String :=
  String.mk (List.replicate n ' ')

/-- A JSON array in `JSON.stringify(v, null, 2)` layout, children already
rendered. -/
def jsonArrStr (ind : Nat) (items : List String) : String :=
  if items.isEmpty then "[]"
  else
    "[\n" ++ String.intercalate ",\n" (items.map (fun v => indentStr (ind + 2) ++ v))
      ++ "\n" ++ indentStr ind ++ "]"

/-- A JSON object in `JSON.stringify(v, null, 2)` layout; `none` fields are
absent keys (stringify skips `undefined` properties). -/
def jsonObjStr (ind : Nat) (fields : List (Option (String × String))) : String :=
  let fs := fields.filterMap id
  if fs.isEmpty then "\x7b\x7d"
  else
    "\x7b\n" ++ String.intercalate ",\n"
        (fs.map (fun f => indentStr (ind + 2) ++ jsonStr f.1 ++ ": " ++ f.2))
      ++ "\n" ++ indentStr ind ++ "\x7d"

/-- `JSON.stringify` of a behavior record (fields in the structure's fixed
order; key order inside the original JSON is not recoverable). -/
def behaviorJson (ind : Nat) (b : Behavior) : String :=
  jsonObjStr ind
    [b.RiskScore.map (fun n => ("RiskScore", toString n)),
     b.RiskLevel.map (fun s => ("RiskLevel", jsonStr s)),
     b.risk.map (fun s => ("risk", jsonStr s)),
     b.severity.map (fun s => ("severity", jsonStr s)),
     b.DiffRemoved.map (fun v => ("DiffRemoved", if v then "true" else "false")),
     b.Description.map (fun s => ("Description", jsonStr s)),
     b.RuleName.map (fun s => ("RuleName", jsonStr s)),
     b.RuleURL.map (fun s => ("RuleURL", jsonStr s)),
     b.RuleLink.map (fun s => ("RuleLink", jsonStr s)),
     b.ID.map (fun s => ("ID", jsonStr s)),
     b.MatchStrings.map (fun ms => ("MatchStrings", jsonArrStr (ind + 2) (ms.map jsonStr)))]

/-- `JSON.stringify` of a per-file object. -/
def fileDataJson (ind : Nat) (fd : FileData) : String :=
  jsonObjStr ind
    [fd.Path.map (fun s => ("Path", jsonStr s)),
     fd.Behaviors.map (fun bs =>
       ("Behaviors", jsonArrStr (ind + 2) (bs.map (behaviorJson (ind + 4))))),
     fd.behaviors.map (fun bs =>
       ("behaviors", jsonArrStr (ind + 2) (bs.map (behaviorJson (ind + 4)))))]

/-- `JSON.stringify` of one bucket object (file name keys). -/
def bucketJson (ind : Nat) (entries : List (String × FileData)) : String :=
  jsonObjStr ind (entries.map (fun e => some (e.1, fileDataJson (ind + 2) e.2)))

/-- The bucket key/value pairs of a diff-data object. -/
def diffDataFieldsJson (ind : Nat) (dd : DiffData) : List (Option (String × String)) :=
  [dd.Added.map (fun es => ("Added", bucketJson (ind + 2) es)),
   dd.Removed.map (fun es => ("Removed", bucketJson (ind + 2) es)),
   dd.Modified.map (fun es => ("Modified", bucketJson (ind + 2) es)),
   dd.added.map (fun es => ("added", bucketJson (ind + 2) es)),
   dd.removed.map (fun es => ("removed", bucketJson (ind + 2) es)),
   dd.modified.map (fun es => ("modified", bucketJson (ind + 2) es))]

/-- `JSON.stringify` of a diff-data object. -/
def diffDataJson (ind : Nat) (dd : DiffData) : String :=
  jsonObjStr ind (diffDataFieldsJson ind dd)

/-- `JSON.stringify` of a parsed payload. -/
def payloadJson (ind : Nat) (p : Payload) : String :=
  jsonObjStr ind
    ([p.Diff.map (fun dd => ("Diff", diffDataJson (ind + 2) dd)),
      p.diff.map (fun dd => ("diff", diffDataJson (ind + 2) dd))]
     ++ diffDataFieldsJson ind p.self)

/-- `JSON.stringify` of an added/removed result entry. -/
def fileEntryJson (ind : Nat) (e : FileEntry) : String :=
  jsonObjStr ind
    [some ("file", jsonStr e.file),
     some ("findings", fileDataJson (ind + 2) e.findings),
     some ("behaviors", jsonArrStr (ind + 2) (e.behaviors.map (behaviorJson (ind + 4)))),
     some ("riskScore", toString e.riskScore)]

/-- `JSON.stringify` of a changed result entry (`path` is skipped when it
is `undefined`). -/
def changedEntryJson (ind : Nat) (e : ChangedEntry) : String :=
  jsonObjStr ind
    [some ("file", jsonStr e.file),
     e.path.map (fun s => ("path", jsonStr s)),
     some ("behaviors", jsonArrStr (ind + 2) (e.behaviors.map (behaviorJson (ind + 4)))),
     some ("addedBehaviors",
       jsonArrStr (ind + 2) (e.addedBehaviors.map (behaviorJson (ind + 4)))),
     some ("removedBehaviors",
       jsonArrStr (ind + 2) (e.removedBehaviors.map (behaviorJson (ind + 4)))),
     some ("riskDelta", toString e.riskDelta)]

/-- `JSON.stringify` of the `raw` field. -/
def rawJson (ind : Nat) : RawVal → String
  | .null => "null"
  | .json p => payloadJson ind p
  | .text s => jsonStr s

/-- `JSON.stringify` of a whole diff result. -/
def diffResultJson (ind : Nat) (d : DiffResult) : String :=
  jsonObjStr ind
    [some ("added", jsonArrStr (ind + 2) (d.added.map (fileEntryJson (ind + 4)))),
     some ("removed", jsonArrStr (ind + 2) (d.removed.map (fileEntryJson (ind + 4)))),
     some ("changed", jsonArrStr (ind + 2) (d.changed.map (changedEntryJson (ind + 4)))),
     some ("riskIncreased", if d.riskIncreased then "true" else "false"),
     some ("totalRiskDelta", toString d.totalRiskDelta),
     some ("raw", rawJson (ind + 2) d.raw)]

/-- `JSON.stringify(diff.raw || diff, null, 2)` — the parsed payload when
`raw` holds it, the raw text as a JSON string when it is non-empty text,
and the whole result otherwise. -/
def rawOrDiffJson (d : DiffResult) : String :=
  match d.raw with
  | .json p => payloadJson 0 p
  | .text s => if s = "" then diffResultJson 0 d else jsonStr s
  | .null => diffResultJson 0 d

/-- `s.substring(0, n)` (JavaScript counts UTF-16 units; every string the
body builder truncates here is far below the cap, so counting characters
is equivalent where it matters). -/
def jsSubstringTo (s : String) (n : Nat) : String :=
  String.mk (s.data.take n)

/-- The sentinel marker embedded as the first line of every managed
comment. -/
def commentMarker : String := "<!-- malcontent-action-comment -->"

/-- One existing discussion comment, as consumed by the reconciler. -/
structure PRComment where
  id : Nat
  body : String
deriving Repr, DecidableEq

/-- The transport action `postPRComment` decides on. -/
inductive CommentAction where
  | noop
  | create (body : String)
  | update (id : Nat) (body : String)
deriving Repr, DecidableEq

/-- `comments.find((comment) => comment.body.includes(commentMarker))`. -/
def findMarked (comments : List PRComment) : Option PRComment :=
  comments.find? (fun c => strContains c.body commentMarker)

/-- `diff.added.length > 0 || diff.removed.length > 0 ||
diff.changed.length > 0`. -/
def hasFindings (d : DiffResult) : Bool :=
  decide (d.added.length > 0) || decide (d.removed.length > 0) ||
    decide (d.changed.length > 0)

/-- The fixed body used when a previously marked comment exists but the
current run has no findings. -/
def resolvedBody : String :=
  commentMarker ++ "\n## Malcontent Analysis Summary\n\n" ++
  "‚úÖ Previously detected security issues have been resolved.\n\n" ++
  "_Check the comment edit history for details about the previous findings._"

/-- A row source of the summary table: changed, added and removed entries
flattened with a status, a signed risk change and a behavior count. -/
structure TableItem where
  file : String
  status : String
  riskChange : Int
  behaviorCount : String
deriving Repr, DecidableEq

/-- The combined `allItems` array of the summary table, in push order
(changed, then added, then removed). -/
def tableItems (d : DiffResult) : List TableItem :=
  d.changed.map (fun it =>
    { file := it.file, status := "Modified", riskChange := it.riskDelta,
      behaviorCount := "+" ++ toString it.addedBehaviors.length ++ "/-" ++
        toString it.removedBehaviors.length })
  ++ d.added.map (fun it =>
    { file := it.file, status := "Added", riskChange := it.riskScore,
      behaviorCount := toString it.behaviors.length })
  ++ d.removed.map (fun it =>
    { file := it.file, status := "Removed", riskChange := -it.riskScore,
      behaviorCount := toString it.behaviors.length })

/-- The collapsible summary table appended when more than one file is
involved. -/
def summaryTable (d : DiffResult) : String :=
  "\n\n<details><summary>üìä Summary Table</summary>\n\n"
  ++ "| File | Status | Risk Change | Behaviors |\n"
  ++ "|------|--------|-------------|----------|\n"
  ++ String.join ((sortDesc (fun it : TableItem => it.riskChange) (tableItems d)).map
      (fun it =>
        "| `" ++ stripTempDir it.file ++ "` | " ++ it.status ++ " | "
          ++ (if it.riskChange > 0 then "+" ++ toString it.riskChange
              else toString it.riskChange)
          ++ " | " ++ it.behaviorCount ++ " |\n"))
  ++ "\n</details>"

/-- The full findings body: marker line, rendered summary, optional table,
then the truncated raw-JSON appendix with its closing fence. -/
def buildFindingsBody (summary : String) (d : DiffResult) : String :=
  commentMarker ++ "\n" ++ summary
  ++ (if d.changed.length + d.added.length + d.removed.length > 1 then summaryTable d
      else "")
  ++ "\n\n<details><summary>üîç Raw JSON Report</summary>\n\n```json\n"
  ++ jsSubstringTo (rawOrDiffJson d) 50000
  ++ "\n```\n</details>"

/-- `postPRComment` of the richer module, as the pure decision it makes:
the transport call it would issue given the listed comments, the rendered
summary and the diff. -/
def postPRComment (comments : List PRComment) (summary : String) (d : DiffResult) :
    CommentAction :=
  let existingComment := findMarked comments
  if hasFindings d = false then
    match existingComment with
    | some c => .update c.id resolvedBody
    | none => .noop
  else
    let body := buildFindingsBody summary d
    match existingComment with
    | some c => .update c.id body
    | none => .create body

lemma buildFindingsBody_getLast (summary : String) (d : DiffResult) :
    (buildFindingsBody summary d).data.getLast? = some '>' := by
  unfold buildFindingsBody
  rw [String.data_append, List.getLast?_append]
  rfl

lemma resolvedBody_ne_buildFindingsBody (summary : String) (d : DiffResult) :
    resolvedBody ≠ buildFindingsBody summary d := by
  intro h
  have h3 : resolvedBody.data.getLast? = some '>' := by
    simpa [buildFindingsBody_getLast] using congrArg (fun s : String => s.data.getLast?) h
  have h4 : resolvedBody.data.getLast? = some '_' := by decide
  rw [h4] at h3
  exact absurd h3 (by decide)

/-- C8: The reconciliation decision — no findings and no marked comment
gives no action; no findings with a marked comment updates it with the
fixed resolved body (which carries the sentinel and differs from every
findings body); findings create a comment when no marked one exists and
update the marked one otherwise, in both cases with the full rendered
body. -/
theorem claim_C8_comment_reconciliation :
    (∀ (cs : List PRComment) (summary : String) (d : DiffResult),
      hasFindings d = false → findMarked cs = none →
        postPRComment cs summary d = .noop)
    ∧ (∀ (cs : List PRComment) (summary : String) (d : DiffResult) (c : PRComment),
      hasFindings d = false → findMarked cs = some c →
        postPRComment cs summary d = .update c.id resolvedBody)
    ∧ strContains resolvedBody commentMarker = true
    ∧ (∀ (summary : String) (d : DiffResult), resolvedBody ≠ buildFindingsBody summary d)
    ∧ (∀ (cs : List PRComment) (summary : String) (d : DiffResult),
      hasFindings d = true →
        (findMarked cs = none →
          postPRComment cs summary d = .create (buildFindingsBody summary d))
        ∧ (∀ c : PRComment, findMarked cs = some c →
          postPRComment cs summary d = .update c.id (buildFindingsBody summary d))) := by
  refine ⟨fun cs summary d h1 h2 => ?_, fun cs summary d c h1 h2 => ?_, by decide,
    resolvedBody_ne_buildFindingsBody,
    fun cs summary d h1 => ⟨fun h2 => ?_, fun c h2 => ?_⟩⟩
  · simp [postPRComment, h1, h2]
  · simp [postPRComment, h1, h2]
  · simp [postPRComment, h1, h2]
  · simp [postPRComment, h1, h2]

/-- Witness for C8 at concrete inputs: an empty diff from rejected text
with no prior comment (no action), the same diff with a marked comment
(resolved update), and the sign-convention diff with no prior comment
(create with the findings body). -/
theorem claim_C8_comment_reconciliation_witness :
    (hasFindings (parseDiffOutput (.malformed "x")) = false
      ∧ postPRComment [] "s" (parseDiffOutput (.malformed "x")) = .noop)
    ∧ postPRComment [{ id := 7, body := "hi <!-- malcontent-action-comment --> there" }]
        "s" (parseDiffOutput (.malformed "x")) = .update 7 resolvedBody
    ∧ (hasFindings (parseDiffOutput (.parsed signConventionPayload)) = true
      ∧ postPRComment [] "sum" (parseDiffOutput (.parsed signConventionPayload)) =
          .create (buildFindingsBody "sum" (parseDiffOutput (.parsed signConventionPayload)))) :=
  ⟨⟨rfl, claim_C8_comment_reconciliation.1 [] "s" _ rfl rfl⟩,
   claim_C8_comment_reconciliation.2.1 _ "s" _
     { id := 7, body := "hi <!-- malcontent-action-comment --> there" } rfl (by decide),
   ⟨rfl, (claim_C8_comment_reconciliation.2.2.2.2 [] "sum"
      (parseDiffOutput (.parsed signConventionPayload)) rfl).1 rfl⟩⟩
